import Mathlib

/-!
# Spec2Proof: the studyMomentum mastery/prediction engine

A shallow embedding of the prediction engine of this repository —
`app/services/predict.py`, `app/services/retirement.py` and the write path
`app/predict/routes.py` — together with proofs about it.

Conventions of the embedding:
* Python floats are modelled as real numbers (`ℝ`), Python ints as `ℤ`.
* A `datetime.date` is modelled as an integer day number; subtracting two
  dates yields the (exact) difference of day numbers.
* A nullable column is an `Option`.  Python's `x or d` fallback on a
  nullable float treats both `None` and `0.0` as falsy; it is `pyOr` below.
* Task dicts mutated in place become records; where list aliasing matters
  (the plan simulator mutates dicts shared between several lists), the list
  of dicts is modelled as a store of records indexed by list position.
-/

namespace StudyMomentum

/-- Python's `x or d` for a nullable float: `None` and `0.0` both fall back
to the default. -/
noncomputable def pyOr (x : Option ℝ) (d : ℝ) : ℝ :=
  match x with
  | none => d
  | some v => if v = 0 then d else v

/-- Python's `x or d` for a nullable int (`None` and `0` are falsy). -/
def pyOrInt (x : Option ℤ) (d : ℤ) : ℤ :=
  match x with
  | none => d
  | some v => if v = 0 then d else v

/-- Python's `x or d` for a nullable string (`None` and `""` are falsy). -/
def pyOrStr (x : Option String) (d : String) : String :=
  match x with
  | none => d
  | some v => if v = "" then d else v

/-! ## `app/services/predict.py`: the pure prediction functions -/

/-- `days_since(last_date, today)` (predict.py 23-30): `0` when the date is
absent, otherwise the day difference floored at `0`. -/
def days_since (last_date : Option ℤ) (today : ℤ) : ℤ :=
  match last_date with
  | none => 0
  | some d => max 0 (today - d)

/-- `apply_decay(mastery, lambda_forgetting, days)` (predict.py 37-55):
exponential forgetting `m * exp(-λ*days)` clamped to `[0,1]`; a no-op for
`days <= 0`. -/
noncomputable def apply_decay (mastery lambda_forgetting : ℝ) (days : ℤ) : ℝ :=
  if days ≤ 0 then mastery
  else max 0 (min 1 (mastery * Real.exp (-lambda_forgetting * (days : ℝ))))

/-- `sph(concept_weight, mastery, t_est_hours)` (predict.py 62-85): the
Study Priority Heuristic `w * (1 - m) / sqrt(t_est)`, with `t_est` replaced
by `1.0` when `t_est <= 0`. -/
noncomputable def sph (concept_weight mastery t_est_hours : ℝ) : ℝ :=
  let t := if t_est_hours ≤ 0 then 1 else t_est_hours
  concept_weight * (1 - mastery) / Real.sqrt t

/-- `rpf(concept_weight, mastery, lambda_forgetting, days_since_last)`
(predict.py 88-114): the Revision Priority Factor
`w * m * (1 - exp(-λ*days))`, and `0` when `days_since_last <= 0`. -/
noncomputable def rpf (concept_weight mastery lambda_forgetting : ℝ)
    (days_since_last : ℤ) : ℝ :=
  if days_since_last ≤ 0 then 0
  else concept_weight * mastery *
    (1 - Real.exp (-lambda_forgetting * (days_since_last : ℝ)))

/-- `SPACED_STAGES` (predict.py 121): days between spaced reviews. -/
def SPACED_STAGES : List ℤ := [1, 3, 7, 14, 30]

/-- `next_due_date(last_studied, current_stage)` (predict.py 123-142): the
stage is clamped into `0 .. len(SPACED_STAGES)-1` by the two guards, then
indexes the interval table. -/
def next_due_date (last_studied : ℤ) (current_stage : ℤ) : ℤ :=
  let s0 := if current_stage < 0 then 0 else current_stage
  let s1 := if (SPACED_STAGES.length : ℤ) ≤ s0 then (SPACED_STAGES.length : ℤ) - 1 else s0
  last_studied + SPACED_STAGES.getD s1.toNat 0

/-- `is_due_for_review(last_studied, current_stage, today)` (predict.py
145-164): never-studied tasks are always due; otherwise due once `today`
reaches the next due date. -/
def is_due_for_review (last_studied : Option ℤ) (current_stage : ℤ) (today : ℤ) : Bool :=
  match last_studied with
  | none => true
  | some d => decide (next_due_date d current_stage ≤ today)

/-- `learn_update(current_mastery, hours_spent, t_est_hours, eta_learn)`
(predict.py 171-196): `m + η*(hours/t_est)*(1-m)` clamped to `[0,1]`,
with `t_est` replaced by `1.0` when `t_est <= 0`. -/
noncomputable def learn_update (current_mastery hours_spent t_est_hours eta_learn : ℝ) : ℝ :=
  let t := if t_est_hours ≤ 0 then 1 else t_est_hours
  max 0 (min 1 (current_mastery + eta_learn * (hours_spent / t) * (1 - current_mastery)))

/-- `revise_update(current_mastery, hours_spent, t_est_hours, rho_revise)`
(predict.py 199-223): same shape as `learn_update` with `ρ` in place of `η`. -/
noncomputable def revise_update (current_mastery hours_spent t_est_hours rho_revise : ℝ) : ℝ :=
  let t := if t_est_hours ≤ 0 then 1 else t_est_hours
  max 0 (min 1 (current_mastery + rho_revise * (hours_spent / t) * (1 - current_mastery)))

/-- `bayes_init(initial_mastery)` (predict.py 230-255): method-of-moments
Beta fit at variance `0.1`, mean clamped into `[0.01, 0.99]`, both
parameters floored at `1.0`. -/
noncomputable def bayes_init (initial_mastery : ℝ) : ℝ × ℝ :=
  let mean := max 0.01 (min 0.99 initial_mastery)
  let temp := mean * (1 - mean) / 0.1 - 1
  (max 1 (mean * temp), max 1 ((1 - mean) * temp))

/-- `quiz_update(alpha, beta, correct, total)` (predict.py 258-277):
`incorrect = total - correct` in integer arithmetic, successes added to α
and failures to β. -/
noncomputable def quiz_update (alpha beta : ℝ) (correct total : ℤ) : ℝ × ℝ :=
  (alpha + (correct : ℝ), beta + ((total - correct : ℤ) : ℝ))

/-- `mastery_from_beta(alpha, beta)` (predict.py 280-291): the posterior
mean `α / (α + β)`. -/
noncomputable def mastery_from_beta (alpha beta : ℝ) : ℝ :=
  alpha / (alpha + beta)

/-- One entry of the list `expected_and_var` consumes (the dicts built at
predict.py 542-549 and 558-566). -/
structure StatTask where
  concept_weight : ℝ
  mastery : ℝ
  total_marks : ℝ

/-- `expected_and_var(tasks)` (predict.py 298-329): accumulated expected
marks and binomial-style variance. -/
noncomputable def expected_and_var (tasks : List StatTask) : ℝ × ℝ :=
  ((tasks.map fun t => t.concept_weight * t.mastery * t.total_marks).sum,
   (tasks.map fun t => t.concept_weight ^ 2 * t.mastery * (1 - t.mastery) * t.total_marks ^ 2).sum)

/-- `math.erfc`, the complementary error function used by `prob_clear`:
`erfc x = (2/√π) ∫_x^∞ exp(-t²) dt`. -/
noncomputable def erfc (x : ℝ) : ℝ :=
  2 / Real.sqrt Real.pi * ∫ t in Set.Ioi x, Real.exp (-t ^ 2)

/-- `prob_clear(mu, sigma2, threshold)` (predict.py 332-360): a step
function when `σ² <= 0`, otherwise `0.5 * erfc(z/√2)` for the standardized
`z = (threshold - μ)/σ`, clamped to `[0,1]`. -/
noncomputable def prob_clear (mu sigma2 threshold : ℝ) : ℝ :=
  if sigma2 ≤ 0 then (if threshold ≤ mu then 1 else 0)
  else
    let sigma := Real.sqrt sigma2
    let z := (threshold - mu) / sigma
    max 0 (min 1 (0.5 * erfc (z / Real.sqrt 2)))

/-- `project_mu(current_mu, daily_delta, days_remaining, delta_decay)`
(predict.py 367-396). -/
noncomputable def project_mu (current_mu daily_delta : ℝ) (days_remaining : ℤ)
    (delta_decay : ℝ) : ℝ :=
  if days_remaining ≤ 0 then current_mu
  else if |delta_decay - 1| < 0.001 then current_mu + daily_delta * (days_remaining : ℝ)
  else current_mu + daily_delta * (1 - delta_decay ^ days_remaining.toNat) / (1 - delta_decay)

/-! ## The daily plan simulator (`simulate_daily_plan`, predict.py 435-588)

The simulator receives a list of task *dicts* (built by the route,
routes.py 136-150) and mutates them in place.  The same dict object can be
appended to both the new-learning and the revision candidate lists, so a
later mutation through one list is visible through the other.  The
embedding therefore keeps the dicts in a single store (a list of records,
one per position of the route-built list) and carries the various candidate
and selected lists as lists of store positions. -/

/-- One task dict as the route builds it (routes.py 136-150): every key is
present, so the `.get(key, default)` reads of the simulator always see the
stored float.  The record's defaults are exactly the `.get` defaults of
predict.py 486-492 and 522-537.  Display-only string fields of the dict
(`task_name`, `subject_name`) play no role in the computation and are
omitted.  `source_derived` is not a dict key: it records the `derived`
column of the source DB row (models.py 295), which the route drops when it
builds the dict — the simulator never reads it, it exists so that
specifications can talk about the source unit's flag. -/
structure PTask where
  task_id : ℤ := 0
  concept_weight : ℝ := 0
  mastery : ℝ := 0
  t_est_hours : ℝ := 4
  lambda_forgetting : ℝ := 0.04
  eta_learn : ℝ := 0.8
  rho_revise : ℝ := 0.35
  last_studied_at : Option ℤ := none
  spaced_stage : ℤ := 0
  task_type : String := "learn"
  source_derived : Bool := true
  mastery_after_decay : ℝ := 0
  days_since_last : ℤ := 0
  sph_priority : ℝ := 0
  rpf_priority : ℝ := 0
  allocated_hours : ℝ := 0
  mastery_after_study : ℝ := 0
  derived : Bool := false

instance : Inhabited PTask := ⟨{}⟩

/-- The dict at position `i` of the store. -/
def getT (store : List PTask) (i : ℕ) : PTask :=
  store.getD i {}

/-- In-place mutation of the dicts at the given positions. -/
def set_in (f : PTask → PTask) (idxs : List ℕ) : ℕ → List PTask → List PTask
  | _, [] => []
  | i, t :: ts => (if i ∈ idxs then f t else t) :: set_in f idxs (i + 1) ts

/-- Step 1 of the simulator (predict.py 466-475): decay every task and
record `days_since_last`. -/
noncomputable def decay_step (today : ℤ) (t : PTask) : PTask :=
  let days := days_since t.last_studied_at today
  { t with
    mastery_after_decay := apply_decay t.mastery t.lambda_forgetting days
    days_since_last := days }

/-- The per-task field writes of step 3 (predict.py 485-507): the SPH score
for unmastered tasks, the RPF score for revision candidates, and the 1.5x
due-for-review boost. -/
noncomputable def priority_step (today : ℤ) (t : PTask) : PTask :=
  let m := t.mastery_after_decay
  let t1 := if m < 0.9 then
      { t with sph_priority := sph t.concept_weight m t.t_est_hours } else t
  let t2 := if 0.3 < m ∧ 3 ≤ t1.days_since_last then
      { t1 with rpf_priority := rpf t1.concept_weight m t1.lambda_forgetting t1.days_since_last }
    else t1
  if is_due_for_review t2.last_studied_at t2.spaced_stage today then
    (if 0.3 < m then { t2 with rpf_priority := t2.rpf_priority * 1.5 } else t2)
  else t2

/-- The store after steps 1 and 3 (two sequential loops over `tasks`). -/
noncomputable def scored_store (tasks : List PTask) (today : ℤ) : List PTask :=
  (tasks.map (decay_step today)).map (priority_step today)

/-- Positions appended to `new_candidates` (predict.py 495-497). -/
noncomputable def new_candidate_idx (store : List PTask) : List ℕ :=
  (List.range store.length).filter fun i =>
    decide ((getT store i).mastery_after_decay < 0.9)

/-- Positions appended to `revision_candidates` (predict.py 500-502). -/
noncomputable def rev_candidate_idx (store : List PTask) : List ℕ :=
  (List.range store.length).filter fun i =>
    decide (0.3 < (getT store i).mastery_after_decay ∧ 3 ≤ (getT store i).days_since_last)

/-- `list.sort(key=..., reverse=True)` (predict.py 510-511): a stable sort
of the candidate list, descending by score. -/
noncomputable def sort_desc (store : List PTask) (key : PTask → ℝ) (idxs : List ℕ) : List ℕ :=
  idxs.mergeSort fun i j => decide (key (getT store j) ≤ key (getT store i))

/-- `allocate_time_by_priority(tasks, total_hours, key)` (predict.py
403-432) acting on the shared store: `idxs` are the positions of the list
argument.  Returns the updated store and the returned list (`[]` when the
list is empty or no hours are available, otherwise the same positions with
`allocated_hours` written — equal split when the total score is `<= 0`,
else proportional). -/
noncomputable def allocate_time_by_priority (store : List PTask) (idxs : List ℕ)
    (total_hours : ℝ) (key : PTask → ℝ) : List PTask × List ℕ :=
  if idxs = [] ∨ total_hours ≤ 0 then (store, [])
  else
    let total_priority := (idxs.map fun i => key (getT store i)).sum
    if total_priority ≤ 0 then
      (set_in (fun t => { t with allocated_hours := total_hours / (idxs.length : ℝ) }) idxs 0 store,
       idxs)
    else
      (set_in (fun t => { t with allocated_hours := key t / total_priority * total_hours }) idxs 0 store,
       idxs)

/-- Step 6, first loop (predict.py 522-529): simulated learning outcome and
the `derived` annotation.  The source writes
`task['derived'] = task.get('concept_weight', 0.0) is not None`; the dict
value at `'concept_weight'` is the float the route stored (never `None`),
so the written flag is `true`. -/
noncomputable def learn_sim_step (t : PTask) : PTask :=
  { t with
    mastery_after_study :=
      learn_update t.mastery_after_decay t.allocated_hours t.t_est_hours t.eta_learn
    derived := true }

/-- Step 6, second loop (predict.py 531-538). -/
noncomputable def revise_sim_step (t : PTask) : PTask :=
  { t with
    mastery_after_study :=
      revise_update t.mastery_after_decay t.allocated_hours t.t_est_hours t.rho_revise
    derived := true }

/-- `projected_gains` of the plan (predict.py 540-587). -/
structure ProjStats where
  mu : ℝ
  sigma2 : ℝ
  p_clear_today : ℝ

/-- The dict returned by `simulate_daily_plan` (predict.py 570-588). -/
structure PlanResult where
  new_tasks : List PTask
  revision_tasks : List PTask
  hours_new : ℝ
  hours_revision : ℝ
  before_stats : ProjStats
  after_stats : ProjStats
  delta_mu : ℝ

/-- `simulate_daily_plan(tasks, daily_hours, split_new, today)` (predict.py
435-588). -/
noncomputable def simulate_daily_plan (tasks : List PTask) (daily_hours split_new : ℝ)
    (today : ℤ) : PlanResult :=
  let s1 := scored_store tasks today
  let hours_new := daily_hours * split_new
  let hours_revision := daily_hours * (1 - split_new)
  let selected_new := (sort_desc s1 PTask.sph_priority (new_candidate_idx s1)).take 10
  let selected_revision := (sort_desc s1 PTask.rpf_priority (rev_candidate_idx s1)).take 8
  let a1 := allocate_time_by_priority s1 selected_new hours_new PTask.sph_priority
  let a2 := allocate_time_by_priority a1.1 selected_revision hours_revision PTask.rpf_priority
  let s4 := set_in learn_sim_step a1.2 0 a2.1
  let s5 := set_in revise_sim_step a2.2 0 s4
  let tasks_before := s5.map fun t => StatTask.mk t.concept_weight t.mastery_after_decay 200
  let ev_before := expected_and_var tasks_before
  let pairs := (a1.2 ++ a2.2).map fun i => ((getT s5 i).task_id, (getT s5 i).mastery_after_study)
  let tasks_after := s5.map fun t =>
    StatTask.mk t.concept_weight
      (((pairs.reverse.find? fun p => decide (p.1 = t.task_id)).map Prod.snd).getD
        t.mastery_after_decay) 200
  let ev_after := expected_and_var tasks_after
  { new_tasks := a1.2.map (getT s5)
    revision_tasks := a2.2.map (getT s5)
    hours_new := hours_new
    hours_revision := hours_revision
    before_stats := ⟨ev_before.1, ev_before.2, prob_clear ev_before.1 ev_before.2 120⟩
    after_stats := ⟨ev_after.1, ev_after.2, prob_clear ev_after.1 ev_after.2 120⟩
    delta_mu := ev_after.1 - ev_before.1 }

/-! ## The persistence model (`app/models.py`), scoped to one user

Only the columns the prediction engine reads or writes are modelled. -/

/-- A row of `tasks` (models.py: the Stage 1 prediction fields). -/
structure DbTask where
  task_id : ℤ := 0
  topic_id : ℤ := 0
  concept_weight : Option ℝ := none
  mastery : ℝ := 0
  t_est_hours : Option ℝ := none
  lambda_forgetting : Option ℝ := none
  eta_learn : Option ℝ := none
  rho_revise : Option ℝ := none
  est_hours_per_unit : Option ℝ := none
  last_studied_at : Option ℤ := none
  last_decay_date : Option ℤ := none
  spaced_stage : Option ℤ := some 0
  task_type : Option String := none
  bayesian_alpha : Option ℝ := none
  bayesian_beta : Option ℝ := none
  version : Option ℤ := some 0
  derived : Bool := true
  retired_at : Option ℤ := none

/-- A row of `subjects`. -/
structure Subject where
  subject_id : ℤ := 0
  goal_id : ℤ := 0
  name : String := ""
  subject_weight : Option ℝ := none

/-- A row of `topics`. -/
structure Topic where
  topic_id : ℤ := 0
  subject_id : ℤ := 0

/-- A row of `goals` (only the fields the write path reads). -/
structure GoalRow where
  goal_id : ℤ := 0
  delta_decay : Option ℝ := none

/-- A row of `idempotency_log` (the fields `apply_plan` reads). -/
structure IdemLog where
  idempotency_key : String
  response_data : Option String

/-- The database state backing the prediction endpoints, for one user. -/
structure AppState where
  tasks : List DbTask
  topics : List Topic
  subjects : List Subject
  goal : GoalRow
  idem_logs : List IdemLog

/-- The subject of a task through its topic (the `Task.query.join(Topic)`
joins): `some subject_id` when the task's topic exists. -/
def task_subject (topics : List Topic) (t : DbTask) : Option ℤ :=
  (topics.find? fun tp => decide (tp.topic_id = t.topic_id)).map Topic.subject_id

/-- The dict the plan route builds from a task row (routes.py 136-150);
`source_derived` records the dropped `derived` column (see `PTask`). -/
noncomputable def task_to_plan_dict (t : DbTask) : PTask :=
  { task_id := t.task_id
    concept_weight := pyOr t.concept_weight 0
    mastery := pyOr (some t.mastery) 0
    t_est_hours := pyOr t.t_est_hours 4
    lambda_forgetting := pyOr t.lambda_forgetting 0.04
    eta_learn := pyOr t.eta_learn 0.8
    rho_revise := pyOr t.rho_revise 0.35
    last_studied_at := t.last_studied_at
    spaced_stage := pyOrInt t.spaced_stage 0
    task_type := pyOrStr t.task_type "learn"
    source_derived := t.derived }

/-! ## Virtual task retirement (`app/services/retirement.py`) -/

/-- The real (non-derived, non-retired) tasks of a subject
(retirement.py 32-36). -/
def real_tasks (s : AppState) (subject_id : ℤ) : List DbTask :=
  s.tasks.filter fun t =>
    decide (task_subject s.topics t = some subject_id) &&
    !t.derived && decide (t.retired_at = none)

/-- `should_retire_virtual_tasks(goal_id, subject_id)` (retirement.py
15-48): `False` for a missing subject or zero subject weight; otherwise at
least 3 real tasks whose `concept_weight` sum covers at least 95% of the
subject's weight. -/
noncomputable def should_retire_virtual_tasks (s : AppState) (subject_id : ℤ) : Bool :=
  match s.subjects.find? fun sb => decide (sb.subject_id = subject_id) with
  | none => false
  | some subject =>
    let subject_weight := pyOr subject.subject_weight 0
    if subject_weight = 0 then false
    else
      let real := real_tasks s subject_id
      if real.length < 3 then false
      else
        let real_weight_sum := (real.map fun t => pyOr t.concept_weight 0).sum
        let coverage := if 0 < subject_weight then real_weight_sum / subject_weight else 0
        decide (0.95 ≤ coverage)

/-- `retire_virtual_tasks(goal_id, subject_id)` (retirement.py 51-74):
stamp every live derived task of the subject with `retired_at = now`;
returns the new state and the number retired. -/
noncomputable def retire_virtual_tasks (s : AppState) (subject_id : ℤ) (now : ℤ) :
    AppState × ℕ :=
  let hit : DbTask → Bool := fun t =>
    decide (task_subject s.topics t = some subject_id) &&
    t.derived && decide (t.retired_at = none)
  ({ s with tasks := s.tasks.map fun t => if hit t then { t with retired_at := some now } else t },
   (s.tasks.filter hit).length)

/-- `auto_retire_check(goal_id)` (retirement.py 77-101): run the check for
every subject of the goal, in order; log the subjects where a positive
number of tasks was retired. -/
noncomputable def auto_retire_check (s : AppState) (goal_id : ℤ) (now : ℤ) :
    AppState × List (ℤ × String × ℕ) :=
  (s.subjects.filter fun sb => decide (sb.goal_id = goal_id)).foldl
    (fun acc sb =>
      if should_retire_virtual_tasks acc.1 sb.subject_id then
        let r := retire_virtual_tasks acc.1 sb.subject_id now
        if 0 < r.2 then (r.1, acc.2 ++ [(sb.subject_id, sb.name, r.2)]) else (r.1, acc.2)
      else acc)
    (s, [])

/-! ## The plan-application write path (`apply_plan`, routes.py 391-684)

The route first replays a logged idempotency key (routes.py 472-481).  For
a fresh key it computes `status_before = compute_goal_status(goal)`
(routes.py 484) — but `compute_goal_status` (predict.py 595-681) iterates
its first parameter as a list of task dicts, and the route passes the Goal
ORM row itself, so the call raises `TypeError`; the surrounding handler
(routes.py 679-684) rolls back (nothing has been written yet) and returns
the 500 error body.  Everything from routes.py 489 on — the per-line
mutation loop, the snapshot upsert, the idempotency-log insert and the
retirement hook — is therefore unreachable; the per-line mutation step is
still embedded below (`apply_plan_update_task`) because the written update
rule is what the specification describes. -/

/-- The responses `apply_plan` can produce on the reachable paths.
`replayed` carries the logged response body verbatim (routes.py 476-479),
`conflict` is the 409 for a key logged without a body (routes.py 480-481),
`error500` the catch-all handler (routes.py 679-684). -/
inductive ApplyResponse where
  | replayed (body : String)
  | conflict
  | error500
deriving DecidableEq

/-- `apply_plan` (routes.py 391-684) as a transition on the database
state: replay for a logged key, otherwise the `TypeError` raised by
`compute_goal_status(goal)` reaches the handler before any write. -/
def apply_plan_route (s : AppState) (idempotency_key : String) : ApplyResponse × AppState :=
  match s.idem_logs.find? fun l => decide (l.idempotency_key = idempotency_key) with
  | some log =>
    match log.response_data with
    | some body => (.replayed body, s)
    | none => (.conflict, s)
  | none => (.error500, s)

/-- The pending-decay step of the (unreachable) mutation loop
(routes.py 548-553): decay only when `last_studied_at` exists and days
elapsed, with the goal's `delta_decay or 0.04` as the rate. -/
noncomputable def apply_plan_decay (goal : GoalRow) (plan_date : ℤ) (t : DbTask) : DbTask :=
  match t.last_studied_at with
  | none => t
  | some d =>
    let days := days_since (some d) plan_date
    if 0 < days then
      { t with mastery := apply_decay t.mastery (pyOr goal.delta_decay 0.04) days }
    else t

/-- One task line's mutation in the loop of `apply_plan` (routes.py
548-591): decay, then the mode-dependent mastery write — note that the
source passes `(old_mastery, eta, alloc_hours, t_est)` to
`learn_update(current_mastery, hours_spent, t_est_hours, eta_learn)` and
adds the returned value to `old_mastery` as if it were a delta — then the
spaced-stage bump on revise, the date stamps, the Bayesian initialization
and the version bump. -/
noncomputable def apply_plan_update_task (goal : GoalRow) (plan_date : ℤ) (mode : String)
    (alloc_hours : ℝ) (t0 : DbTask) : DbTask :=
  let t := apply_plan_decay goal plan_date t0
  let old_mastery := t.mastery
  let t :=
    if mode = "learn" then
      let t_est := pyOr t.est_hours_per_unit 10
      { t with mastery := min 1 (old_mastery + learn_update old_mastery 0.8 alloc_hours t_est) }
    else if mode = "revise" then
      let t_est := pyOr t.est_hours_per_unit 10
      { t with
        mastery := min 1 (old_mastery + revise_update old_mastery 0.35 alloc_hours t_est)
        spaced_stage := some (min (pyOrInt t.spaced_stage 0 + 1) 4) }
    else t
  let t := { t with last_studied_at := some plan_date }
  let t :=
    if t.bayesian_alpha.isNone || t.bayesian_beta.isNone then
      { t with
        bayesian_alpha := some (bayes_init t.mastery).1
        bayesian_beta := some (bayes_init t.mastery).2 }
    else t
  let t := { t with last_decay_date := some plan_date }
  { t with version := some (pyOrInt t.version 0 + 1) }

/-- The mastery the specification's update rule produces for a `learn`
line: `learnUpdate(decayed mastery, allocated hours, tEstHours, etaLearn)`
with the route's `eta = 0.8`, clamped to `[0,1]` (the clamp is internal to
`learn_update`). -/
noncomputable def claimed_learn_mastery (decayed alloc_hours t_est : ℝ) : ℝ :=
  learn_update decayed alloc_hours t_est 0.8

/-! ## Concrete scenarios used by the theorems below -/

/-- A unit dict that lands in both the new-learning and the revision
selection of the simulator: decayed mastery `0.5` (between `0.3` and
`0.9`) and last studied 5 days before the reference day.  Its source DB
row is user-authored (`derived = False`). -/
noncomputable def taskB : PTask :=
  { task_id := 7
    concept_weight := 1/2
    mastery := 1/2
    t_est_hours := 1
    lambda_forgetting := 0
    eta_learn := 4/5
    rho_revise := 7/20
    last_studied_at := some (-5)
    spaced_stage := 0
    task_type := "learn"
    source_derived := false }

/-- `taskB` after the decay and scoring loops: no decay (`λ = 0`),
`days_since_last = 5`, `sph = 0.5·0.5/√1 = 1/4`, `rpf = 0` (boosted by
1.5x to still `0`, the task being due at stage 0). -/
noncomputable def taskB1 : PTask :=
  { taskB with
    mastery_after_decay := 1/2
    days_since_last := 5
    sph_priority := 1/4
    rpf_priority := 0 }

/-- `taskB1` after the new-learning allocation: the whole `hours_new`. -/
noncomputable def taskB2 : PTask :=
  { taskB1 with allocated_hours := 18/5 }

/-- `taskB2` after the revision allocation overwrites the shared dict's
`allocated_hours` with the equal-split revision hours. -/
noncomputable def taskB3 : PTask :=
  { taskB1 with allocated_hours := 12/5 }

/-- `taskB3` after the new-learning outcome loop. -/
noncomputable def taskB4 : PTask :=
  { taskB3 with mastery_after_study := 1, derived := true }

/-- `taskB4` after the revision outcome loop (the final dict state). -/
noncomputable def taskB5 : PTask :=
  { taskB3 with mastery_after_study := 23/25, derived := true }

/-- A database state with one goal, subject, topic and task and no
idempotency log rows. -/
noncomputable def state0 : AppState :=
  { tasks := [{ task_id := 7, topic_id := 1, mastery := 2/5, est_hours_per_unit := some 10 }]
    topics := [{ topic_id := 1, subject_id := 1 }]
    subjects := [{ subject_id := 1, goal_id := 1, name := "History", subject_weight := some (1/4) }]
    goal := { goal_id := 1, delta_decay := none }
    idem_logs := [] }

/-- The subject used by the retirement scenarios: configured weight `1`. -/
def retSubject : Subject :=
  { subject_id := 1, goal_id := 1, name := "Polity", subject_weight := some 1 }

/-- A real (user-authored, live) task of the retirement scenarios. -/
def retTask (id : ℤ) (w : ℝ) : DbTask :=
  { task_id := id, topic_id := 1, derived := false, concept_weight := some w }

/-- Retirement scenario: 3 real tasks covering exactly 95% of the weight. -/
noncomputable def S95 : AppState :=
  { tasks := [retTask 1 (1/2), retTask 2 (1/4), retTask 3 (1/5)]
    topics := [{ topic_id := 1, subject_id := 1 }]
    subjects := [retSubject]
    goal := {}
    idem_logs := [] }

/-- Retirement scenario: 3 real tasks covering 94.9% of the weight. -/
noncomputable def S949 : AppState :=
  { tasks := [retTask 1 (1/2), retTask 2 (1/4), retTask 3 (199/1000)]
    topics := [{ topic_id := 1, subject_id := 1 }]
    subjects := [retSubject]
    goal := {}
    idem_logs := [] }

/-- Retirement scenario: only 2 real tasks, covering 100% of the weight. -/
noncomputable def S100x2 : AppState :=
  { tasks := [retTask 1 (1/2), retTask 2 (1/2)]
    topics := [{ topic_id := 1, subject_id := 1 }]
    subjects := [retSubject]
    goal := {}
    idem_logs := [] }

/-! ## Theorems -/

/-- **C6.** For every mastery `m ∈ [0,1]`, `λ ≥ 0` and every `days`,
`apply_decay m λ days` lies between `0` and `m`; and for `days ≤ 0` (in
particular `days = 0`) it returns `m` unchanged. -/
theorem apply_decay_bounds_and_zero_noop (m lam : ℝ) (days : ℤ)
    (hm0 : 0 ≤ m) (_hm1 : m ≤ 1) (hl : 0 ≤ lam) :
    (0 ≤ apply_decay m lam days ∧ apply_decay m lam days ≤ m) ∧
    (days ≤ 0 → apply_decay m lam days = m) := by
  have hnoop : days ≤ 0 → apply_decay m lam days = m := by
    intro h
    unfold apply_decay
    rw [if_pos h]
  refine ⟨?_, hnoop⟩
  by_cases h : days ≤ 0
  · rw [hnoop h]
    exact ⟨hm0, le_refl m⟩
  · push_neg at h
    have hdr : (0 : ℝ) < (days : ℝ) := by exact_mod_cast h
    have hexp : Real.exp (-lam * (days : ℝ)) ≤ 1 := by
      rw [Real.exp_le_one_iff]
      nlinarith
    have hme : m * Real.exp (-lam * (days : ℝ)) ≤ m := by
      nlinarith [Real.exp_pos (-lam * (days : ℝ))]
    have h0e : 0 ≤ m * Real.exp (-lam * (days : ℝ)) :=
      mul_nonneg hm0 (Real.exp_pos _).le
    unfold apply_decay
    rw [if_neg (by omega)]
    exact ⟨le_max_left 0 _, max_le hm0 ((min_le_right _ _).trans hme)⟩

/-- Witness for C6 at the concrete input `m = 1/2, λ = 1/25, days = 0`. -/
theorem apply_decay_bounds_and_zero_noop_witness :
    (0 ≤ apply_decay (1/2) (1/25) 0 ∧ apply_decay (1/2) (1/25) 0 ≤ 1/2) ∧
    ((0 : ℤ) ≤ 0 → apply_decay (1/2) (1/25) 0 = 1/2) :=
  apply_decay_bounds_and_zero_noop (1/2) (1/25) 0 (by norm_num) (by norm_num) (by norm_num)

/-- The stage clamp of `next_due_date` in closed form. -/
theorem next_due_date_eq_clamped (last stage : ℤ) :
    next_due_date last stage = last + SPACED_STAGES.getD (max 0 (min 4 stage)).toNat 0 := by
  unfold next_due_date
  have hlen : ((SPACED_STAGES.length : ℕ) : ℤ) = 5 := by rfl
  rw [hlen]
  dsimp only
  split_ifs <;>
    (refine congrArg (fun k => last + SPACED_STAGES.getD k 0) ?_ ; omega)

/-- **C10.** `next_due_date` and `is_due_for_review` are total over every
integer stage: the stage is clamped into the table range `0..4`
(`max 0 (min 4 stage)` is the nearest in-range stage), the result equals
that of the clamped stage, and a never-studied task is due at every
stage. -/
theorem next_due_and_review_total_clamped (last today stage : ℤ) :
    0 ≤ max 0 (min 4 stage) ∧ max 0 (min 4 stage) ≤ 4 ∧
    next_due_date last stage = next_due_date last (max 0 (min 4 stage)) ∧
    is_due_for_review (some last) stage today
      = is_due_for_review (some last) (max 0 (min 4 stage)) today ∧
    is_due_for_review none stage today = true := by
  have hdue : next_due_date last stage = next_due_date last (max 0 (min 4 stage)) := by
    rw [next_due_date_eq_clamped last stage, next_due_date_eq_clamped last (max 0 (min 4 stage))]
    congr 2
    omega
  refine ⟨le_max_left _ _, by omega, hdue, ?_, rfl⟩
  show decide (next_due_date last stage ≤ today)
      = decide (next_due_date last (max 0 (min 4 stage)) ≤ today)
  rw [hdue]

/-- **C8 (amended).** `quiz_update` returns exactly
`(α + k, β + (n - k))`; and provided the posterior mass `α + β + n` is
positive (as for genuine Beta parameters `α, β > 0`), the posterior mean
of the updated parameters is monotonically increasing in `k`.  Without
that proviso monotonicity fails (see the counterexample). -/
theorem quiz_update_formula_and_mono (alpha beta : ℝ) (n k1 k2 : ℤ) :
    (∀ k : ℤ, quiz_update alpha beta k n = (alpha + (k : ℝ), beta + ((n : ℝ) - (k : ℝ)))) ∧
    (0 < alpha + beta + (n : ℝ) → k1 ≤ k2 →
      mastery_from_beta (quiz_update alpha beta k1 n).1 (quiz_update alpha beta k1 n).2 ≤
      mastery_from_beta (quiz_update alpha beta k2 n).1 (quiz_update alpha beta k2 n).2) := by
  constructor
  · intro k
    unfold quiz_update
    refine Prod.ext rfl ?_
    push_cast
    ring
  · intro hpos hk
    unfold quiz_update mastery_from_beta
    dsimp only
    have hden : ∀ k : ℤ, alpha + (k : ℝ) + (beta + ((n - k : ℤ) : ℝ)) = alpha + beta + (n : ℝ) := by
      intro k
      push_cast
      ring
    rw [hden k1, hden k2]
    have hnum : alpha + (k1 : ℝ) ≤ alpha + (k2 : ℝ) := by
      have : (k1 : ℝ) ≤ (k2 : ℝ) := by exact_mod_cast hk
      linarith
    exact div_le_div_of_nonneg_right hnum hpos.le

/-- Counterexample to C8 as stated "for all alpha, beta": at
`α = -5, β = 0, n = 2` the posterior mean decreases from `k = 0` to
`k = 1`. -/
theorem quiz_update_mono_counterexample :
    ¬ (mastery_from_beta (quiz_update (-5) 0 0 2).1 (quiz_update (-5) 0 0 2).2 ≤
       mastery_from_beta (quiz_update (-5) 0 1 2).1 (quiz_update (-5) 0 1 2).2) := by
  unfold quiz_update mastery_from_beta
  norm_num

/-- Witness for C8 at the spec's concrete quiz
`α = 1, β = 1, 15 correct of 20` (and monotonicity from `k = 5` to
`k = 15`). -/
theorem quiz_update_formula_and_mono_witness :
    quiz_update 1 1 15 20 = (16, 6) ∧
    mastery_from_beta (quiz_update 1 1 5 20).1 (quiz_update 1 1 5 20).2 ≤
      mastery_from_beta (quiz_update 1 1 15 20).1 (quiz_update 1 1 15 20).2 := by
  refine ⟨?_, (quiz_update_formula_and_mono 1 1 20 5 15).2 (by norm_num) (by norm_num)⟩
  rw [(quiz_update_formula_and_mono 1 1 20 5 15).1 15]
  norm_num

/-- **C2 (divergence at the failing input).**  For a `learn` line with
`alloc_hours = 1` on a unit with mastery `0` and `est_hours_per_unit = 10`,
the route writes mastery `1` — it passes `(old, eta, alloc, t_est)` to
`learn_update(current, hours, t_est, eta)` and adds the returned *mastery*
to the old value as if it were a delta — while the specified update
`learnUpdate(decayed, alloc, tEst, η=0.8)` clamped to `[0,1]` yields
`0.08`. -/
theorem apply_plan_learn_update_divergence :
    (apply_plan_update_task { goal_id := 1, delta_decay := none } 0 "learn" 1
        { task_id := 7, mastery := 0, est_hours_per_unit := some 10 }).mastery = 1 ∧
    claimed_learn_mastery 0 1 10 = 0.08 ∧
    (1 : ℝ) ≠ 0.08 := by
  refine ⟨?_, ?_, by norm_num⟩
  · simp only [apply_plan_update_task, apply_plan_decay, pyOr, learn_update]
    norm_num
  · simp only [claimed_learn_mastery, learn_update]
    norm_num

/-- **C3 (divergence at the failing input).**  With no idempotency log rows,
applying a plan twice with the same fresh key performs *zero* sets of unit
mutations, not one: the first call already returns the catch-all 500
response and leaves the state untouched (`compute_goal_status(goal)` on
routes.py 484 raises before anything is written or logged), and so does
the second. -/
theorem apply_plan_twice_zero_mutations :
    apply_plan_route state0 "key-1" = (ApplyResponse.error500, state0) ∧
    apply_plan_route (apply_plan_route state0 "key-1").2 "key-1"
      = (ApplyResponse.error500, state0) := by
  constructor <;> rfl

/-- **C5.** For a subject that exists and has positive configured weight,
the retirement check accepts exactly when there are at least 3 real
(non-derived, non-retired) units whose `concept_weight` sum covers at
least 95% of the subject's weight. -/
theorem should_retire_characterization (s : AppState) (sid : ℤ) (subject : Subject) (w : ℝ)
    (hfind : (s.subjects.find? fun sb => decide (sb.subject_id = sid)) = some subject)
    (hw : subject.subject_weight = some w) (hwpos : 0 < w) :
    should_retire_virtual_tasks s sid = true ↔
      3 ≤ (real_tasks s sid).length ∧
      0.95 * w ≤ ((real_tasks s sid).map fun t => pyOr t.concept_weight 0).sum := by
  unfold should_retire_virtual_tasks
  rw [hfind]
  have hpy : pyOr subject.subject_weight 0 = w := by
    rw [hw]
    show (if w = 0 then 0 else w) = w
    rw [if_neg hwpos.ne']
  dsimp only
  rw [hpy, if_neg hwpos.ne', if_pos hwpos]
  by_cases hlen : (real_tasks s sid).length < 3
  · rw [if_pos hlen]
    simp only [Bool.false_eq_true, false_iff, not_and]
    intro h3
    omega
  · rw [if_neg hlen]
    rw [decide_eq_true_eq, le_div_iff₀ hwpos]
    constructor
    · intro h
      exact ⟨by omega, h⟩
    · intro h
      exact h.2

/-- Witness for C5: the spec's three concrete scenarios — 3 real units at
exactly 95% coverage retire; 2 real units at 100% do not; 3 real units at
94.9% do not. -/
theorem should_retire_characterization_witness :
    should_retire_virtual_tasks S95 1 = true ∧
    should_retire_virtual_tasks S100x2 1 = false ∧
    should_retire_virtual_tasks S949 1 = false := by
  have h95 := should_retire_characterization S95 1 retSubject 1 rfl rfl (by norm_num)
  have h2 := should_retire_characterization S100x2 1 retSubject 1 rfl rfl (by norm_num)
  have h949 := should_retire_characterization S949 1 retSubject 1 rfl rfl (by norm_num)
  have e95 : real_tasks S95 1 = [retTask 1 (1/2), retTask 2 (1/4), retTask 3 (1/5)] := rfl
  have e2 : real_tasks S100x2 1 = [retTask 1 (1/2), retTask 2 (1/2)] := rfl
  have e949 : real_tasks S949 1 = [retTask 1 (1/2), retTask 2 (1/4), retTask 3 (199/1000)] := rfl
  refine ⟨h95.mpr ⟨?_, ?_⟩, ?_, ?_⟩
  · rw [e95]
    norm_num
  · rw [e95]
    norm_num [retTask, pyOr]
  · refine Bool.eq_false_iff.mpr fun h => ?_
    have := (h2.mp h).1
    rw [e2] at this
    norm_num at this
  · refine Bool.eq_false_iff.mpr fun h => ?_
    have := (h949.mp h).2
    rw [e949] at this
    norm_num [retTask, pyOr] at this

/-- The Gaussian integrand of `erfc` is integrable. -/
theorem exp_neg_sq_integrable :
    MeasureTheory.Integrable (fun t : ℝ => Real.exp (-t ^ 2)) := by
  have h := integrable_exp_neg_mul_sq (by norm_num : (0 : ℝ) < 1)
  simpa using h

/-- `erfc` is antitone: a larger lower limit leaves less Gaussian mass. -/
theorem erfc_antitone {x y : ℝ} (hxy : x ≤ y) : erfc y ≤ erfc x := by
  unfold erfc
  have hmono : (∫ t in Set.Ioi y, Real.exp (-t ^ 2)) ≤ ∫ t in Set.Ioi x, Real.exp (-t ^ 2) := by
    apply MeasureTheory.setIntegral_mono_set exp_neg_sq_integrable.integrableOn
    · exact MeasureTheory.ae_of_all _ fun t => (Real.exp_pos _).le
    · exact (Set.Ioi_subset_Ioi hxy).eventuallyLE
  have hc : (0 : ℝ) ≤ 2 / Real.sqrt Real.pi := by positivity
  exact mul_le_mul_of_nonneg_left hmono hc

/-- **C7.** For fixed variance, `prob_clear` is non-increasing in the
threshold and non-decreasing in `μ`; this covers both the `σ² ≤ 0` step
branch and the `erfc` branch. -/
theorem prob_clear_monotone (mu1 mu2 sigma2 thr thr1 thr2 : ℝ) :
    (thr1 ≤ thr2 → prob_clear mu1 sigma2 thr2 ≤ prob_clear mu1 sigma2 thr1) ∧
    (mu1 ≤ mu2 → prob_clear mu1 sigma2 thr ≤ prob_clear mu2 sigma2 thr) := by
  have hsqrt2 : (0 : ℝ) ≤ Real.sqrt 2 := Real.sqrt_nonneg 2
  constructor
  · intro ht
    unfold prob_clear
    by_cases hs : sigma2 ≤ 0
    · rw [if_pos hs, if_pos hs]
      split_ifs with ha hb hb
      · exact le_refl 1
      · exact absurd (ht.trans ha) hb
      · norm_num
      · exact le_refl 0
    · rw [if_neg hs, if_neg hs]
      push_neg at hs
      have hsig : 0 < Real.sqrt sigma2 := Real.sqrt_pos.mpr hs
      have hz : (thr1 - mu1) / Real.sqrt sigma2 ≤ (thr2 - mu1) / Real.sqrt sigma2 :=
        div_le_div_of_nonneg_right (by linarith) hsig.le
      have herfc := erfc_antitone (div_le_div_of_nonneg_right hz hsqrt2)
      have hhalf : 0.5 * erfc ((thr2 - mu1) / Real.sqrt sigma2 / Real.sqrt 2) ≤
          0.5 * erfc ((thr1 - mu1) / Real.sqrt sigma2 / Real.sqrt 2) := by linarith
      exact max_le_max (le_refl 0) (min_le_min (le_refl 1) hhalf)
  · intro hmu
    unfold prob_clear
    by_cases hs : sigma2 ≤ 0
    · rw [if_pos hs, if_pos hs]
      split_ifs with ha hb hb
      · exact le_refl 1
      · exact absurd (ha.trans hmu) hb
      · norm_num
      · exact le_refl 0
    · rw [if_neg hs, if_neg hs]
      push_neg at hs
      have hsig : 0 < Real.sqrt sigma2 := Real.sqrt_pos.mpr hs
      have hz : (thr - mu2) / Real.sqrt sigma2 ≤ (thr - mu1) / Real.sqrt sigma2 :=
        div_le_div_of_nonneg_right (by linarith) hsig.le
      have herfc := erfc_antitone (div_le_div_of_nonneg_right hz hsqrt2)
      have hhalf : 0.5 * erfc ((thr - mu1) / Real.sqrt sigma2 / Real.sqrt 2) ≤
          0.5 * erfc ((thr - mu2) / Real.sqrt sigma2 / Real.sqrt 2) := by linarith
      exact max_le_max (le_refl 0) (min_le_min (le_refl 1) hhalf)

/-- Witness for C7 at concrete inputs in the deterministic branch. -/
theorem prob_clear_monotone_witness :
    prob_clear 0 0 1 ≤ prob_clear 0 0 0 ∧ prob_clear 0 0 0 ≤ prob_clear 1 0 0 :=
  ⟨(prob_clear_monotone 0 1 0 0 0 1).1 (by norm_num),
   (prob_clear_monotone 0 1 0 0 0 1).2 (by norm_num)⟩

/-- Decay and scoring of the shared-selection scenario: no decay (λ = 0),
5 days since last study, `sph = 1/4`, `rpf = 0`. -/
theorem scored_store_B : scored_store [taskB] 0 = [taskB1] := by
  have hdecay : decay_step 0 taskB = { taskB with mastery_after_decay := 1/2, days_since_last := 5 } := by
    unfold decay_step taskB days_since apply_decay
    norm_num [Real.exp_zero]
  unfold scored_store
  rw [List.map_singleton, hdecay, List.map_singleton]
  unfold priority_step taskB
  have hdue : is_due_for_review (some (-5)) 0 0 = true := by
    unfold is_due_for_review next_due_date SPACED_STAGES
    decide
  unfold sph rpf taskB1 taskB
  simp only [hdue]
  norm_num [Real.sqrt_one, Real.exp_zero]

/-- The scored task is a new-learning candidate (mastery 1/2 < 0.9). -/
theorem new_candidate_B : new_candidate_idx [taskB1] = [0] := by
  unfold new_candidate_idx getT taskB1 taskB
  norm_num [List.filter]

/-- The scored task is also a revision candidate (mastery > 0.3, 5 ≥ 3
days since last study). -/
theorem rev_candidate_B : rev_candidate_idx [taskB1] = [0] := by
  unfold rev_candidate_idx getT taskB1 taskB
  norm_num [List.filter]

/-- The new-learning allocation gives the single selected task all of
`hours_new = 18/5`. -/
theorem allocate_new_B :
    allocate_time_by_priority [taskB1] [0] (6 * (3/5)) PTask.sph_priority = ([taskB2], [0]) := by
  unfold allocate_time_by_priority
  rw [if_neg (by norm_num)]
  have htot : (([0] : List ℕ).map fun i => PTask.sph_priority (getT [taskB1] i)).sum = 1/4 := by
    norm_num [getT, taskB1, taskB]
  simp only [htot]
  rw [if_neg (by norm_num)]
  unfold set_in
  rw [if_pos (List.mem_singleton.mpr rfl)]
  unfold set_in
  refine Prod.ext ?_ rfl
  show [{ taskB1 with allocated_hours := PTask.sph_priority taskB1 / (1/4) * (6 * (3/5)) }] = [taskB2]
  unfold taskB2 taskB1 taskB
  norm_num

/-- The revision allocation then overwrites the shared dict's
`allocated_hours` with the equal-split `hours_revision = 12/5` (its total
RPF score is 0). -/
theorem allocate_rev_B :
    allocate_time_by_priority [taskB2] [0] (6 * (1 - 3/5)) PTask.rpf_priority = ([taskB3], [0]) := by
  unfold allocate_time_by_priority
  rw [if_neg (by norm_num)]
  have htot : (([0] : List ℕ).map fun i => PTask.rpf_priority (getT [taskB2] i)).sum = 0 := by
    norm_num [getT, taskB2, taskB1, taskB]
  simp only [htot]
  rw [if_pos (by norm_num)]
  unfold set_in
  rw [if_pos (List.mem_singleton.mpr rfl)]
  unfold set_in
  refine Prod.ext ?_ rfl
  show [{ taskB2 with allocated_hours := 6 * (1 - 3/5) / (([0] : List ℕ).length : ℝ) }] = [taskB3]
  unfold taskB3 taskB2 taskB1 taskB
  norm_num

/-- The new-learning outcome loop on the shared dict: it reads the already
overwritten `allocated_hours = 12/5`, and the simulated mastery saturates
at 1. -/
theorem sim_learn_B : set_in learn_sim_step [0] 0 [taskB3] = [taskB4] := by
  unfold set_in
  rw [if_pos (List.mem_singleton.mpr rfl)]
  unfold set_in learn_sim_step learn_update
  unfold taskB4 taskB3 taskB1 taskB
  norm_num

/-- The revision outcome loop then overwrites the simulated mastery. -/
theorem sim_revise_B : set_in revise_sim_step [0] 0 [taskB4] = [taskB5] := by
  unfold set_in
  rw [if_pos (List.mem_singleton.mpr rfl)]
  unfold set_in revise_sim_step revise_update
  unfold taskB5 taskB4 taskB3 taskB1 taskB
  norm_num

/-- The plan of the shared-selection scenario: the same final dict appears
in both output lists. -/
theorem plan_B_lists :
    (simulate_daily_plan [taskB] 6 (3/5) 0).new_tasks = [taskB5] ∧
    (simulate_daily_plan [taskB] 6 (3/5) 0).revision_tasks = [taskB5] ∧
    (simulate_daily_plan [taskB] 6 (3/5) 0).hours_new = 6 * (3/5) := by
  have htake10 : List.take 10 [(0 : ℕ)] = [0] := rfl
  have htake8 : List.take 8 [(0 : ℕ)] = [0] := rfl
  have hsortn : sort_desc [taskB1] PTask.sph_priority [0] = [0] :=
    List.mergeSort_singleton 0
  have hsortr : sort_desc [taskB1] PTask.rpf_priority [0] = [0] :=
    List.mergeSort_singleton 0
  have hget : getT [taskB5] 0 = taskB5 := rfl
  simp only [simulate_daily_plan, scored_store_B, new_candidate_B, rev_candidate_B,
    hsortn, hsortr, htake10, htake8, allocate_new_B, allocate_rev_B,
    sim_learn_B, sim_revise_B, hget, List.map_singleton]
  exact ⟨trivial, trivial, trivial⟩

/-- **C1 (divergence at the failing input).**  The simulator annotates
every selected unit with `derived = true` (the source computes
`task.get('concept_weight', 0.0) is not None` over a float-valued dict
entry), regardless of the source unit's `derived` column: here the source
unit is user-authored (`derived = False`) yet both output lists carry
`derived = true`. -/
theorem simulate_plan_derived_flag_divergence :
    ((simulate_daily_plan [taskB] 6 (3/5) 0).new_tasks.map PTask.derived = [true] ∧
     (simulate_daily_plan [taskB] 6 (3/5) 0).revision_tasks.map PTask.derived = [true]) ∧
    taskB.source_derived = false := by
  refine ⟨⟨?_, ?_⟩, rfl⟩
  · rw [plan_B_lists.1]
    rfl
  · rw [plan_B_lists.2.1]
    rfl

/-- **C4 (divergence at the failing input).**  A unit selected into both
lists has its `allocated_hours` overwritten by the revision allocation
(the two lists share the dict), so the new-learning hours do not sum to
`hours_new`: the sum is `12/5 = hours_revision` while
`hours_new = 18/5`. -/
theorem plan_hours_not_conserved :
    ((simulate_daily_plan [taskB] 6 (3/5) 0).new_tasks.map PTask.allocated_hours).sum = 12/5 ∧
    (simulate_daily_plan [taskB] 6 (3/5) 0).hours_new = 18/5 ∧
    ((12 : ℝ)/5) ≠ 18/5 := by
  refine ⟨?_, ?_, by norm_num⟩
  · rw [plan_B_lists.1]
    show taskB5.allocated_hours + 0 = 12/5
    unfold taskB5 taskB3 taskB1 taskB
    norm_num
  · rw [plan_B_lists.2.2]
    norm_num

/-- `decay_step` keeps the unit's `last_studied_at`. -/
theorem decay_step_last (today : ℤ) (t : PTask) :
    (decay_step today t).last_studied_at = t.last_studied_at := rfl

/-- `decay_step` records `days_since` in `days_since_last`. -/
theorem decay_step_days (today : ℤ) (t : PTask) :
    (decay_step today t).days_since_last = days_since t.last_studied_at today := rfl

/-- `priority_step` keeps `last_studied_at` and `days_since_last`. -/
theorem priority_step_preserves (today : ℤ) (t : PTask) :
    (priority_step today t).last_studied_at = t.last_studied_at ∧
    (priority_step today t).days_since_last = t.days_since_last := by
  unfold priority_step
  dsimp only
  split_ifs <;> exact ⟨rfl, rfl⟩

/-- **C9.** `days_since` is never negative — `0` for an absent date and `0`
for a date on or after today — so in the simulator a never-studied unit is
not decayed, gets `days_since_last = 0`, and is never placed in the
revision candidate set (membership forces a studied `last_studied_at`),
even though `is_due_for_review` always marks it due. -/
theorem days_since_nonneg_never_studied_no_revision :
    (∀ (last : Option ℤ) (today : ℤ), 0 ≤ days_since last today) ∧
    (∀ today : ℤ, days_since none today = 0) ∧
    (∀ d today : ℤ, today ≤ d → days_since (some d) today = 0) ∧
    (∀ (today : ℤ) (t : PTask), t.last_studied_at = none →
      (decay_step today t).mastery_after_decay = t.mastery ∧
      (decay_step today t).days_since_last = 0) ∧
    (∀ (tasks : List PTask) (today : ℤ) (i : ℕ),
      i ∈ rev_candidate_idx (scored_store tasks today) →
      (getT (scored_store tasks today) i).last_studied_at ≠ none ∧
      (getT tasks i).last_studied_at ≠ none) ∧
    (∀ (stage today : ℤ), is_due_for_review none stage today = true) := by
  have hnonneg : ∀ (last : Option ℤ) (today : ℤ), 0 ≤ days_since last today := by
    intro last today
    cases last with
    | none => exact le_refl 0
    | some d => exact le_max_left 0 _
  refine ⟨hnonneg, fun _ => rfl, ?_, ?_, ?_, fun _ _ => rfl⟩
  · intro d today h
    simp only [days_since]
    omega
  · intro today t h
    unfold decay_step
    rw [h]
    exact ⟨rfl, rfl⟩
  · intro tasks today i hmem
    unfold rev_candidate_idx at hmem
    rw [List.mem_filter, List.mem_range] at hmem
    obtain ⟨hrange, hdec⟩ := hmem
    have hprop := of_decide_eq_true hdec
    have hi : i < tasks.length := by
      simpa [scored_store] using hrange
    have hgt : getT (scored_store tasks today) i
        = priority_step today (decay_step today (getT tasks i)) := by
      unfold scored_store getT
      rw [List.getD_eq_getElem _ _ (by simpa [scored_store] using hrange)]
      rw [List.getElem_map, List.getElem_map]
      rw [List.getD_eq_getElem _ _ hi]
    have hdays : (getT (scored_store tasks today) i).days_since_last
        = days_since (getT tasks i).last_studied_at today := by
      rw [hgt, (priority_step_preserves today _).2, decay_step_days]
    have hlast : (getT (scored_store tasks today) i).last_studied_at
        = (getT tasks i).last_studied_at := by
      rw [hgt, (priority_step_preserves today _).1, decay_step_last]
    have hne : (getT tasks i).last_studied_at ≠ none := by
      intro hnone
      rw [hdays] at hprop
      rw [hnone] at hprop
      have : (3 : ℤ) ≤ 0 := hprop.2
      omega
    exact ⟨by rw [hlast]; exact hne, hne⟩

/-- Witness for C9: the revision-candidate implication at the concrete
scenario store (whose single unit was studied 5 days ago), together with
concrete `days_since` evaluations. -/
theorem days_since_nonneg_never_studied_no_revision_witness :
    0 ≤ days_since none 0 ∧ days_since (some 3) 0 = 0 ∧
    (getT (scored_store [taskB] 0) 0).last_studied_at ≠ none ∧
    is_due_for_review none 0 0 = true := by
  have hmem : 0 ∈ rev_candidate_idx (scored_store [taskB] 0) := by
    rw [scored_store_B, rev_candidate_B]
    exact List.mem_singleton.mpr rfl
  exact ⟨days_since_nonneg_never_studied_no_revision.1 none 0,
    days_since_nonneg_never_studied_no_revision.2.2.1 3 0 (by norm_num),
    (days_since_nonneg_never_studied_no_revision.2.2.2.2.1 [taskB] 0 0 hmem).1,
    days_since_nonneg_never_studied_no_revision.2.2.2.2.2 0 0⟩

end StudyMomentum
